import Mathlib

/-
Shallow embedding of `src/main.cc` of llama4micro.

The program is a single FreeRTOS task (`app_main`) that loads a Llama model
once at startup, then loops forever: it parks itself with `vTaskSuspend`,
is resumed by a debounced button interrupt (`xTaskResumeFromISR` on the
task handle), and runs one generation (`TellStory`) per wake-up, driving
two LEDs (`kStatus`, `kUser`) around each phase.

The embedding is a small-step machine: `Loc` enumerates the program points
of `app_main` (including the interior of `LoadLlamaModel`), `taskStep` is
the controller task executing one statement, and `isrResume` is the button
ISR firing an accepted (post-debounce) edge.  `xTaskResumeFromISR` on a
task that is not suspended has no effect in FreeRTOS (there is no pending
wake count for suspension), which `isrResume` mirrors.  `run` folds an
arbitrary interleaving of task steps and accepted edges from the initial
state.

`build_transformer` / `build_tokenizer` (in `llama2.h`, not part of the
shown sources) abort fatally on a missing or malformed artifact; this is
modelled from the spec by the `modelOk` / `tokenizerOk` flags of `Config`
and the absorbing `halted` location.
-/

namespace Llama4micro

/-- Mirrors `const int kSteps = 256;` (src/main.cc line 22), the configured
generation step budget, and the initializer `int steps = kSteps;` (line 29). -/
def kSteps : Int := 256

/-- Mirrors the clamp in `LoadLlamaModel` (src/main.cc lines 45-47):
`if (steps == 0 || steps > transformer.config.seq_len) steps = transformer.config.seq_len;`
where `steps` and `seq_len` are C `int`s.  `r` is the requested budget and
`M` the model's maximum sequence length. -/
def resolveStepBudget (r M : Int) : Int :=
  if r = 0 ∨ r > M then M else r

/-- The three engine resources the lifecycle routines build and free:
the transformer weights, the tokenizer, and the sampler. -/
inductive Res
  | weights
  | tok
  | samp
  deriving DecidableEq

/-- Memory-lifecycle operations appearing in `LoadLlamaModel` and
`UnloadLlamaModel`, one constructor per statement that acquires or
releases something. -/
inductive MemOp
  | newModelBuf   -- `llama_model_buffer = new std::vector<uint8_t>()`   (line 42)
  | buildW        -- `build_transformer(...)`                           (line 43)
  | newTokBuf     -- `llama_tokenizer_buffer = new std::vector<uint8_t>()` (line 49)
  | buildT        -- `build_tokenizer(...)`                             (line 50)
  | buildS        -- `build_sampler(...)`                               (line 54)
  | freeS         -- `free_sampler(&sampler)`                           (line 66)
  | freeT         -- `free_tokenizer(&tokenizer)`                       (line 67)
  | freeW         -- `free_transformer(&transformer)`                   (line 68)
  | delTokBuf     -- `delete llama_tokenizer_buffer`                    (line 70)
  | delModelBuf   -- `delete llama_model_buffer`                        (line 71)
  deriving DecidableEq

/-- The acquisition/release operations of `LoadLlamaModel` (src/main.cc
lines 38-60) in source order. -/
def loadOps : List MemOp :=
  [.newModelBuf, .buildW, .newTokBuf, .buildT, .buildS]

/-- The release operations of `UnloadLlamaModel` (src/main.cc lines 63-72)
in source order. -/
def unloadOps : List MemOp :=
  [.freeS, .freeT, .freeW, .delTokBuf, .delModelBuf]

/-- Maps each `build_*` / `free_*` call to the engine resource it acquires
or releases.  The raw byte-buffer `new` / `delete` statements are the
enclosing storage allocations, not the build/teardown of the three named
resources, so they map to `none`. -/
def resOf : MemOp → Option Res
  | .buildW => some .weights
  | .buildT => some .tok
  | .buildS => some .samp
  | .freeW => some .weights
  | .freeT => some .tok
  | .freeS => some .samp
  | _ => none

/-- Observable events emitted while the machine runs. -/
inductive Event
  | ledStatusW (b : Bool)    -- `LedSet(Led::kStatus, b)`
  | ledUserW (b : Bool)      -- `LedSet(Led::kUser, b)`
  | acquire (r : Res)        -- a successful `build_*` call in `LoadLlamaModel`
  | clampEv                  -- the clamp at lines 45-47 executing
  | generate (budget : Int)  -- `generate(...)` inside `TellStory` with this step budget
  | fatal                    -- the fatal diagnostic on a failed load (modelled from the spec)
  deriving DecidableEq

/-- Program points of `app_main` (src/main.cc lines 85-114), including the
interior of `LoadLlamaModel`.  Each location is "about to execute" the
statement noted. -/
inductive Loc
  | init0     -- `LedSet(Led::kStatus, true)`  (line 95)
  | init1     -- `LedSet(Led::kUser, false)`   (line 96)
  | loadT     -- `build_transformer(...)`      (line 43)
  | loadClamp -- the `steps` clamp             (lines 45-47)
  | loadTok   -- `build_tokenizer(...)`        (line 50)
  | loadSamp  -- `build_sampler(...)`          (line 54)
  | idle0     -- `LedSet(Led::kStatus, false)` (line 101)
  | idle1     -- `LedSet(Led::kUser, true)`    (line 102)
  | idleSusp  -- `vTaskSuspend(nullptr)`       (line 103)
  | parked    -- blocked at line 103 until resumed, then continuing at line 107
  | gen0      -- `LedSet(Led::kStatus, true)`  (line 107)
  | gen1      -- `LedSet(Led::kUser, false)`   (line 108)
  | gen2      -- `TellStory(kPrompt)`          (line 109)
  | halted    -- fatal halt inside a failed `build_*` (modelled from the spec)
  deriving DecidableEq

/-- Run-specific facts about the environment: the model's maximum sequence
length (`transformer.config.seq_len`) and whether the model and tokenizer
artifacts on flash are present and well formed. -/
structure Config where
  seqLen : Int
  modelOk : Bool
  tokenizerOk : Bool
  deriving DecidableEq

/-- State of the embedded machine: the controller task's program point, the
FreeRTOS suspended bit of the task, the two LED levels, the global
`int steps` variable, counters for the lifecycle calls, and the trace of
observable events so far. -/
structure MachineState where
  loc : Loc
  suspended : Bool
  ledStatus : Bool
  ledUser : Bool
  steps : Int
  loadCalls : Nat   -- number of `LoadLlamaModel` invocations started
  clampCalls : Nat  -- number of executions of the clamp at lines 45-47
  genCalls : Nat    -- number of `TellStory` invocations
  events : List Event
  deriving DecidableEq

/-- The state at entry to `app_main`: about to run line 95, not suspended,
LEDs at their reset level, `steps = kSteps`. -/
def initState : MachineState :=
  { loc := .init0, suspended := false, ledStatus := false, ledUser := false,
    steps := kSteps, loadCalls := 0, clampCalls := 0, genCalls := 0, events := [] }

/-- The button ISR (src/main.cc lines 89-92): an accepted falling edge runs
`xTaskResumeFromISR(handle)`.  FreeRTOS makes a suspended task ready again;
resuming a task that is not suspended does nothing and records nothing. -/
def isrResume (s : MachineState) : MachineState :=
  if s.suspended then { s with suspended := false } else s

/-- One statement of the controller task, by program point.  A task step at
`parked` while still suspended is a stutter (the scheduler does not run the
task); `halted` is absorbing. -/
def taskStep (cfg : Config) (s : MachineState) : MachineState :=
  match s.loc with
  | .init0 => { s with ledStatus := true, events := s.events ++ [.ledStatusW true], loc := .init1 }
  | .init1 => { s with ledUser := false, events := s.events ++ [.ledUserW false], loc := .loadT }
  | .loadT =>
      if cfg.modelOk then
        { s with loadCalls := s.loadCalls + 1,
                 events := s.events ++ [.acquire .weights], loc := .loadClamp }
      else
        { s with loadCalls := s.loadCalls + 1,
                 events := s.events ++ [.fatal], loc := .halted }
  | .loadClamp =>
      { s with steps := resolveStepBudget s.steps cfg.seqLen,
               clampCalls := s.clampCalls + 1,
               events := s.events ++ [.clampEv], loc := .loadTok }
  | .loadTok =>
      if cfg.tokenizerOk then
        { s with events := s.events ++ [.acquire .tok], loc := .loadSamp }
      else
        { s with events := s.events ++ [.fatal], loc := .halted }
  | .loadSamp => { s with events := s.events ++ [.acquire .samp], loc := .idle0 }
  | .idle0 => { s with ledStatus := false, events := s.events ++ [.ledStatusW false], loc := .idle1 }
  | .idle1 => { s with ledUser := true, events := s.events ++ [.ledUserW true], loc := .idleSusp }
  | .idleSusp => { s with suspended := true, loc := .parked }
  | .parked => if s.suspended then s else { s with loc := .gen0 }
  | .gen0 => { s with ledStatus := true, events := s.events ++ [.ledStatusW true], loc := .gen1 }
  | .gen1 => { s with ledUser := false, events := s.events ++ [.ledUserW false], loc := .gen2 }
  | .gen2 =>
      { s with genCalls := s.genCalls + 1,
               events := s.events ++ [.generate s.steps], loc := .idle0 }
  | .halted => s

/-- A step of the whole system is either the controller task executing one
statement or the ISR delivering one accepted button edge. -/
inductive Label
  | task
  | edge
  deriving DecidableEq

/-- Advance the machine by one labelled step. -/
def stepM (cfg : Config) (s : MachineState) : Label → MachineState
  | .task => taskStep cfg s
  | .edge => isrResume s

/-- Run the machine from `initState` over an interleaving of task steps and
accepted edges. -/
def run (cfg : Config) (L : List Label) : MachineState :=
  L.foldl (stepM cfg) initState

/-- Locations whose task step calls into the engine library
(`build_transformer`, `build_tokenizer`, `build_sampler`, `generate`). -/
def isEngineCallLoc : Loc → Bool
  | .loadT | .loadTok | .loadSamp | .gen2 => true
  | _ => false

/-- Locations inside the Generating phase (src/main.cc lines 107-109). -/
def isGenerating : Loc → Bool
  | .gen0 | .gen1 | .gen2 => true
  | _ => false

/-- Locations inside the forever loop (src/main.cc lines 99-110), i.e. the
Idle and Generating phases. -/
def isLoopPhase : Loc → Bool
  | .idle0 | .idle1 | .idleSusp | .parked | .gen0 | .gen1 | .gen2 => true
  | _ => false

/-- Number of `LoadLlamaModel` invocations already started when the task is
at this location. -/
def loadCallsAt : Loc → Nat
  | .init0 | .init1 | .loadT => 0
  | _ => 1

/-- Level of the status LED at each location, as written by the preceding
`LedSet(Led::kStatus, _)` calls (reset level `false` before the first). -/
def statusAt : Loc → Bool
  | .init0 | .idle1 | .idleSusp | .parked | .gen0 => false
  | _ => true

/-- Level of the user LED at each location, as written by the preceding
`LedSet(Led::kUser, _)` calls (reset level `false` before the first). -/
def userAt : Loc → Bool
  | .idleSusp | .parked | .gen0 | .gen1 => true
  | _ => false

/-- Locations before the clamp at lines 45-47 has executed. -/
def isPreClamp : Loc → Bool
  | .init0 | .init1 | .loadT | .loadClamp => true
  | _ => false

/-- Locations after the clamp at lines 45-47 has executed (excluding
`halted`, which is reachable both before and after it). -/
def isPostClamp : Loc → Bool
  | .loadTok | .loadSamp | .idle0 | .idle1 | .idleSusp | .parked
  | .gen0 | .gen1 | .gen2 => true
  | _ => false

/-- Locations reachable when the tokenizer artifact is missing or
malformed (`build_tokenizer` halts fatally). -/
def isTokFailReach : Loc → Bool
  | .init0 | .init1 | .loadT | .loadClamp | .loadTok | .halted => true
  | _ => false

/-- Locations reachable when the model artifact is missing or malformed
(`build_transformer` halts fatally). -/
def isModelFailReach : Loc → Bool
  | .init0 | .init1 | .loadT | .halted => true
  | _ => false

/-- The sequence of engine resources acquired so far, read off the event
trace. -/
def acqOf (es : List Event) : List Res :=
  es.filterMap fun e => match e with | .acquire r => some r | _ => none

/-- Expected acquisition sequence at each location (`none` at `halted`,
which is reachable with different prefixes). -/
def acqAt : Loc → Option (List Res)
  | .init0 | .init1 | .loadT => some []
  | .loadClamp | .loadTok => some [.weights]
  | .loadSamp => some [.weights, .tok]
  | .halted => none
  | _ => some [.weights, .tok, .samp]

/-- A run configuration with both artifacts present and well formed and the
model header declaring `seq_len = 256` (the stories15M model of the
repository). -/
def cfgOk : Config := { seqLen := 256, modelOk := true, tokenizerOk := true }

/-- A run configuration whose tokenizer artifact is missing or malformed. -/
def cfgTokBad : Config := { seqLen := 256, modelOk := true, tokenizerOk := false }

/-- Boot sequence: the nine task steps from line 95 through `vTaskSuspend`,
ending parked at the Idle wait point. -/
def bootTrace : List Label := List.replicate 9 Label.task

/-- One accepted button press and the Generating cycle it triggers, ending
parked at the Idle wait point again: resume, leave the wait point, the two
LED writes, `TellStory`, the two Idle LED writes, `vTaskSuspend`. -/
def cycleTrace : List Label := Label.edge :: List.replicate 7 Label.task

/-- Like `cycleTrace`, but with three further accepted edges delivered in
rapid succession entirely within the Generating cycle (one each while the
task is at `gen0`, `gen1` and `gen2`). -/
def mashedCycleTrace : List Label :=
  [.edge, .task, .edge, .task, .edge, .task, .edge, .task, .task, .task, .task]

/-- Boot followed by two separate presses, each while parked: two
Generating cycles run. -/
def twoCycleTrace : List Label := bootTrace ++ cycleTrace ++ cycleTrace

/-- The reachability invariant of the machine: the suspended bit is only
set while parked at `vTaskSuspend`; the LED levels are determined by the
program point; `LoadLlamaModel` has started at most once; the step budget
is `kSteps` before the clamp and the clamped value after it; a fatal halt
has emitted the fatal diagnostic; load failures confine the program points;
every `generate` call so far received the load-time clamped budget; and the
acquisition trace matches the program point. -/
def Inv (cfg : Config) (s : MachineState) : Prop :=
  (s.suspended = true → s.loc = .parked) ∧
  s.ledStatus = statusAt s.loc ∧
  s.ledUser = userAt s.loc ∧
  s.loadCalls = loadCallsAt s.loc ∧
  (isPreClamp s.loc = true → s.steps = kSteps ∧ s.clampCalls = 0) ∧
  (isPostClamp s.loc = true → s.steps = resolveStepBudget kSteps cfg.seqLen ∧ s.clampCalls = 1) ∧
  s.clampCalls ≤ 1 ∧
  (s.loc = .halted → Event.fatal ∈ s.events) ∧
  (cfg.tokenizerOk = false → isTokFailReach s.loc = true) ∧
  (cfg.modelOk = false → isModelFailReach s.loc = true) ∧
  (∀ b, Event.generate b ∈ s.events → b = resolveStepBudget kSteps cfg.seqLen) ∧
  (∀ l, acqAt s.loc = some l → acqOf s.events = l)

lemma inv_initState (cfg : Config) : Inv cfg initState := by
  simp [Inv, initState, statusAt, userAt, loadCallsAt, isPreClamp, isPostClamp,
    isTokFailReach, isModelFailReach, acqAt, acqOf]

set_option maxHeartbeats 2000000 in
lemma inv_stepM (cfg : Config) (s : MachineState) (lab : Label)
    (h : Inv cfg s) : Inv cfg (stepM cfg s lab) := by
  obtain ⟨h1, h2, h3, h4, h5, h6, h7, h8, h9, h10, h11, h12⟩ := h
  cases lab with
  | edge =>
      cases hs : s.suspended with
      | false =>
          simpa [stepM, isrResume, hs] using
            ⟨h1, h2, h3, h4, h5, h6, h7, h8, h9, h10, h11, h12⟩
      | true =>
          simp only [stepM, isrResume, hs, if_true]
          exact ⟨by simp, h2, h3, h4, h5, h6, h7, h8, h9, h10, h11, h12⟩
  | task =>
      cases hl : s.loc <;>
        simp only [hl] at h1 h2 h3 h4 h5 h6 h8 h9 h10 h12 <;>
        refine ⟨?_, ?_, ?_, ?_, ?_, ?_, ?_, ?_, ?_, ?_, ?_, ?_⟩ <;>
        (try simp_all [stepM, taskStep, hl, statusAt, userAt, loadCallsAt,
          isPreClamp, isPostClamp, isTokFailReach, isModelFailReach,
          acqAt, acqOf, kSteps]) <;>
        (try split_ifs) <;>
        (try simp_all [statusAt, userAt, loadCallsAt,
          isPreClamp, isPostClamp, isTokFailReach, isModelFailReach,
          acqAt, acqOf, kSteps]) <;>
        (try exact h11) <;>
        (try exact fun b hb => hb.elim (h11 b) id)

lemma inv_run (cfg : Config) (L : List Label) : Inv cfg (run cfg L) := by
  have key : ∀ (M : List Label) (s : MachineState),
      Inv cfg s → Inv cfg (M.foldl (stepM cfg) s) := by
    intro M
    induction M with
    | nil => intro s hs; exact hs
    | cons a M ih => intro s hs; exact ih _ (inv_stepM cfg s a hs)
  exact key L initState (inv_initState cfg)

lemma run_append (cfg : Config) (p q : List Label) :
    run cfg (p ++ q) = q.foldl (stepM cfg) (run cfg p) := by
  simp [run, List.foldl_append]

lemma edge_noop (cfg : Config) (s : MachineState) (hs : s.suspended = false) :
    stepM cfg s Label.edge = s := by
  simp [stepM, isrResume, hs]

lemma edges_noop (cfg : Config) (s : MachineState) (hs : s.suspended = false)
    (n : Nat) : (List.replicate n Label.edge).foldl (stepM cfg) s = s := by
  induction n with
  | zero => rfl
  | succ n ih => rw [List.replicate_succ, List.foldl_cons, edge_noop cfg s hs]; exact ih

/-- Claim C3 (confirmed): the step-budget resolution of src/main.cc lines
45-47 returns `M` when the requested budget is `0` or exceeds `M`, and the
requested budget otherwise; in particular with `M = 256` a request of `0`
resolves to `256` and a request of `1000` resolves to `256`. -/
theorem C3_clamp_correct (r M : Int) :
    (r = 0 ∨ r > M → resolveStepBudget r M = M) ∧
    (r ≠ 0 → r ≤ M → resolveStepBudget r M = r) ∧
    resolveStepBudget 0 256 = 256 ∧
    resolveStepBudget 1000 256 = 256 := by
  refine ⟨?_, ?_, by decide, by decide⟩
  · intro h
    simp [resolveStepBudget, h]
  · intro h1 h2
    have hn : ¬(r = 0 ∨ r > M) := by omega
    simp [resolveStepBudget, hn]

/-- Witness for `C3_clamp_correct` at concrete inputs: a request of `0`
resolves to the maximum, a valid request of `7` resolves to itself. -/
theorem C3_clamp_correct_witness :
    resolveStepBudget 0 256 = 256 ∧ resolveStepBudget 7 256 = 7 :=
  ⟨(C3_clamp_correct 0 256).1 (Or.inl rfl),
   (C3_clamp_correct 7 256).2.1 (by decide) (by decide)⟩

/-- Claim C4 (counterexample): the claim says the resolved budget lies in
`[1, M]` for every `int` request `r` and every `M ≥ 1`, but a negative
request passes through the clamp unchanged: with `r = -1` and `M = 256`
the result is `-1`, below `1`. -/
theorem C4_counterexample :
    resolveStepBudget (-1) 256 = -1 ∧
    ¬(1 ≤ resolveStepBudget (-1) 256) ∧ (1 : Int) ≤ 256 := by decide

/-- Claim C4 (amended): for every requested budget `r ≥ 0` and model
maximum `M ≥ 1`, the resolved budget lies in `[1, M]`. -/
theorem C4_amended_clamp_range (r M : Int) (h0 : 0 ≤ r) (h1 : 1 ≤ M) :
    1 ≤ resolveStepBudget r M ∧ resolveStepBudget r M ≤ M := by
  unfold resolveStepBudget
  split <;> omega

/-- Witness for `C4_amended_clamp_range` at `r = 5`, `M = 10`. -/
theorem C4_amended_clamp_range_witness :
    1 ≤ resolveStepBudget 5 10 ∧ resolveStepBudget 5 10 ≤ 10 :=
  C4_amended_clamp_range 5 10 (by decide) (by decide)

/-- Claim C8 (confirmed): `UnloadLlamaModel` releases the sampler, the
tokenizer and the transformer weights (`free_sampler`, `free_tokenizer`,
`free_transformer`, lines 66-68) in exactly the reverse of the order in
which `LoadLlamaModel` built them (`build_transformer`, `build_tokenizer`,
`build_sampler`, lines 43-54). -/
theorem C8_release_reverse_of_acquire :
    unloadOps.filterMap resOf = (loadOps.filterMap resOf).reverse := by decide

/-- Claim C9 (confirmed): `xTaskResumeFromISR` on a task that is not
suspended is discarded rather than remembered, so after the controller
next suspends at the Idle wait point it stays blocked under task scheduling
alone, and a fresh accepted edge after suspension is what lets the next
task step enter the Generating phase. -/
theorem C9_resume_while_running_discarded (cfg : Config) :
    (∀ s : MachineState, s.suspended = false → stepM cfg s Label.edge = s) ∧
    (∀ s : MachineState, s.loc = Loc.parked → s.suspended = true →
      stepM cfg s Label.task = s) ∧
    (∀ s : MachineState, s.loc = Loc.parked → s.suspended = true →
      (stepM cfg (stepM cfg s Label.edge) Label.task).loc = Loc.gen0) := by
  refine ⟨?_, ?_, ?_⟩
  · intro s hs
    simp [stepM, isrResume, hs]
  · intro s hp hs
    simp [stepM, taskStep, hp, hs]
  · intro s hp hs
    simp [stepM, isrResume, taskStep, hp, hs]

/-- Witness for `C9_resume_while_running_discarded`: at boot the task is
not suspended and an edge is a no-op; after `bootTrace` the task is parked
and suspended, stutters under a task step, and enters `gen0` once a fresh
edge has arrived. -/
theorem C9_resume_while_running_discarded_witness :
    stepM cfgOk initState Label.edge = initState ∧
    stepM cfgOk (run cfgOk bootTrace) Label.task = run cfgOk bootTrace ∧
    (stepM cfgOk (stepM cfgOk (run cfgOk bootTrace) Label.edge) Label.task).loc = Loc.gen0 :=
  ⟨(C9_resume_while_running_discarded cfgOk).1 initState rfl,
   (C9_resume_while_running_discarded cfgOk).2.1 _ (by decide) (by decide),
   (C9_resume_while_running_discarded cfgOk).2.2 _ (by decide) (by decide)⟩

/-- Claim C1 (counterexample): the claim says three accepted edges
delivered entirely within one Generating cycle produce exactly one
subsequent Generating cycle.  In fact they produce none: after the boot
sequence, one press, and a Generating cycle with three accepted edges
inside it, `TellStory` has run exactly once, the run is identical to the
same run without the three extra edges, and the task ends parked and
suspended so that thirty further task steps change nothing. -/
theorem C1_counterexample :
    (run cfgOk (bootTrace ++ mashedCycleTrace)).genCalls = 1 ∧
    run cfgOk (bootTrace ++ mashedCycleTrace) = run cfgOk (bootTrace ++ cycleTrace) ∧
    run cfgOk (bootTrace ++ mashedCycleTrace ++ List.replicate 30 Label.task) =
      run cfgOk (bootTrace ++ mashedCycleTrace) := by decide

/-- Claim C1 (amended): accepted edges delivered while the controller is
in the Generating phase are discarded by `xTaskResumeFromISR` (the task is
not suspended), so they cause zero subsequent Generating cycles: inserting
any number of such edges leaves the whole run unchanged. -/
theorem C1_amended_edges_in_generating_cause_no_cycle (cfg : Config)
    (p q : List Label) (n : Nat)
    (h : isGenerating (run cfg p).loc = true) :
    run cfg (p ++ (List.replicate n Label.edge ++ q)) = run cfg (p ++ q) := by
  have hinv := inv_run cfg p
  have hsus : (run cfg p).suspended = false := by
    cases hsv : (run cfg p).suspended
    · rfl
    · have hp := hinv.1 hsv
      rw [hp] at h
      simp [isGenerating] at h
  rw [run_append, run_append, List.foldl_append, edges_noop cfg _ hsus n]

/-- Witness for `C1_amended_edges_in_generating_cause_no_cycle`: after
boot, a press and one step into the Generating phase, a burst of three
edges followed by six task steps yields the same state as the six task
steps alone. -/
theorem C1_amended_edges_in_generating_cause_no_cycle_witness :
    run cfgOk ((bootTrace ++ [Label.edge, Label.task]) ++
        (List.replicate 3 Label.edge ++ List.replicate 6 Label.task)) =
      run cfgOk ((bootTrace ++ [Label.edge, Label.task]) ++ List.replicate 6 Label.task) :=
  C1_amended_edges_in_generating_cause_no_cycle cfgOk
    (bootTrace ++ [Label.edge, Label.task]) (List.replicate 6 Label.task) 3 (by decide)

/-- Claim C2 (confirmed): in every run `LoadLlamaModel` is started at most
once, and exactly once whenever the controller has reached the forever
loop (normal operation); no path re-enters it. -/
theorem C2_load_called_once (cfg : Config) (L : List Label) :
    (run cfg L).loadCalls ≤ 1 ∧
    (isLoopPhase (run cfg L).loc = true → (run cfg L).loadCalls = 1) := by
  obtain ⟨h1, h2, h3, h4, hrest⟩ := inv_run cfg L
  constructor
  · rw [h4]
    cases (run cfg L).loc <;> simp [loadCallsAt]
  · intro hl
    rw [h4]
    cases hloc : (run cfg L).loc <;> simp_all [isLoopPhase, loadCallsAt]

/-- Witness for `C2_load_called_once`: after the boot sequence the
controller is in the loop and the load has run exactly once. -/
theorem C2_load_called_once_witness :
    (run cfgOk bootTrace).loadCalls ≤ 1 ∧ (run cfgOk bootTrace).loadCalls = 1 :=
  ⟨(C2_load_called_once cfgOk bootTrace).1,
   (C2_load_called_once cfgOk bootTrace).2 (by decide)⟩

/-- Claim C5 (counterexample): the claim says the clamp is re-applied
before every generation cycle.  In fact it runs exactly once, inside
`LoadLlamaModel`: after boot and two presses, two Generating cycles have
run but the clamp has executed only once. -/
theorem C5_counterexample :
    (run cfgOk twoCycleTrace).genCalls = 2 ∧
    (run cfgOk twoCycleTrace).clampCalls = 1 := by decide

/-- Claim C5 (amended): the step budget is clamped exactly once, at load
time (src/main.cc lines 45-47); every generation call receives the stored
load-time value `resolveStepBudget kSteps seqLen`, so a change to the
configured budget after load would not take effect without reloading. -/
theorem C5_amended_clamped_once_at_load (cfg : Config) (L : List Label) :
    (run cfg L).clampCalls ≤ 1 ∧
    (∀ b, Event.generate b ∈ (run cfg L).events →
      b = resolveStepBudget kSteps cfg.seqLen) := by
  obtain ⟨h1, h2, h3, h4, h5, h6, h7, h8, h9, h10, h11, h12⟩ := inv_run cfg L
  exact ⟨h7, h11⟩

/-- Witness for `C5_amended_clamped_once_at_load` on the two-cycle run:
the clamp ran at most once and the generation observed there received the
load-time clamped budget `256`. -/
theorem C5_amended_clamped_once_at_load_witness :
    (run cfgOk twoCycleTrace).clampCalls ≤ 1 ∧
    (256 : Int) = resolveStepBudget kSteps cfgOk.seqLen :=
  ⟨(C5_amended_clamped_once_at_load cfgOk twoCycleTrace).1,
   (C5_amended_clamped_once_at_load cfgOk twoCycleTrace).2 256 (by decide)⟩

/-- Claim C6 (confirmed): whenever the controller is about to perform an
engine call (`build_transformer`, `build_tokenizer`, `build_sampler` or
`generate`), the busy indicator configuration has already been written:
the status LED is on and the user LED is off before the call begins. -/
theorem C6_busy_asserted_before_engine_calls (cfg : Config) (L : List Label)
    (h : isEngineCallLoc (run cfg L).loc = true) :
    (run cfg L).ledStatus = true ∧ (run cfg L).ledUser = false := by
  obtain ⟨h1, h2, h3, hrest⟩ := inv_run cfg L
  cases hloc : (run cfg L).loc <;>
    simp_all [isEngineCallLoc, statusAt, userAt]

/-- Witness for `C6_busy_asserted_before_engine_calls`: two task steps
into the run the controller is about to call `build_transformer` and the
LEDs are in the busy configuration. -/
theorem C6_busy_asserted_before_engine_calls_witness :
    (run cfgOk [Label.task, Label.task]).ledStatus = true ∧
    (run cfgOk [Label.task, Label.task]).ledUser = false :=
  C6_busy_asserted_before_engine_calls cfgOk [Label.task, Label.task] (by decide)

/-- Claim C7 (confirmed, spec-modelled halt): when the tokenizer or model
artifact is missing or malformed, the run never reaches the Idle or
Generating phases, and once halted the fatal diagnostic has been emitted,
both indicators are in the busy configuration (status on, user off), and
no step of either the task or the ISR changes the state again. -/
theorem C7_fatal_halt_stays_busy (cfg : Config) (L : List Label)
    (h : cfg.tokenizerOk = false ∨ cfg.modelOk = false) :
    isLoopPhase (run cfg L).loc = false ∧
    ((run cfg L).loc = Loc.halted →
      (run cfg L).ledStatus = true ∧ (run cfg L).ledUser = false ∧
      Event.fatal ∈ (run cfg L).events ∧
      (∀ lab, stepM cfg (run cfg L) lab = run cfg L)) := by
  obtain ⟨h1, h2, h3, h4, h5, h6, h7, h8, h9, h10, h11, h12⟩ := inv_run cfg L
  constructor
  · rcases h with ht | hm
    · have hr := h9 ht
      cases hloc : (run cfg L).loc <;> simp_all [isTokFailReach, isLoopPhase]
    · have hr := h10 hm
      cases hloc : (run cfg L).loc <;> simp_all [isModelFailReach, isLoopPhase]
  · intro hh
    have hsus : (run cfg L).suspended = false := by
      cases hsv : (run cfg L).suspended
      · rfl
      · have hp := h1 hsv
        rw [hh] at hp
        exact absurd hp (by decide)
    refine ⟨?_, ?_, h8 hh, ?_⟩
    · rw [h2, hh]; rfl
    · rw [h3, hh]; rfl
    · intro lab
      cases lab
      · simp [stepM, taskStep, hh]
      · simp [stepM, isrResume, hsus]

/-- Witness for `C7_fatal_halt_stays_busy`: with a bad tokenizer artifact
the boot sequence halts; the loop is never reached, the diagnostic is in
the trace, the LEDs show busy, and one further task step changes
nothing. -/
theorem C7_fatal_halt_stays_busy_witness :
    isLoopPhase (run cfgTokBad bootTrace).loc = false ∧
    (run cfgTokBad bootTrace).ledStatus = true ∧
    (run cfgTokBad bootTrace).ledUser = false ∧
    Event.fatal ∈ (run cfgTokBad bootTrace).events ∧
    stepM cfgTokBad (run cfgTokBad bootTrace) Label.task = run cfgTokBad bootTrace :=
  ⟨(C7_fatal_halt_stays_busy cfgTokBad bootTrace (Or.inl rfl)).1,
   ((C7_fatal_halt_stays_busy cfgTokBad bootTrace (Or.inl rfl)).2 (by decide)).1,
   ((C7_fatal_halt_stays_busy cfgTokBad bootTrace (Or.inl rfl)).2 (by decide)).2.1,
   ((C7_fatal_halt_stays_busy cfgTokBad bootTrace (Or.inl rfl)).2 (by decide)).2.2.1,
   ((C7_fatal_halt_stays_busy cfgTokBad bootTrace (Or.inl rfl)).2 (by decide)).2.2.2 Label.task⟩

/-- Claim C10 (confirmed): at every engine call and at the halted state
the status LED is on and the user LED off; at the Idle wait point (about
to suspend, or parked) the user LED is on and the status LED off; and at
all of these points exactly one of the two LEDs is lit. -/
theorem C10_exactly_one_led_identifies_phase (cfg : Config) (L : List Label) :
    (isEngineCallLoc (run cfg L).loc = true ∨ (run cfg L).loc = Loc.halted →
      (run cfg L).ledStatus = true ∧ (run cfg L).ledUser = false) ∧
    ((run cfg L).loc = Loc.idleSusp ∨ (run cfg L).loc = Loc.parked →
      (run cfg L).ledStatus = false ∧ (run cfg L).ledUser = true) ∧
    (isEngineCallLoc (run cfg L).loc = true ∨ (run cfg L).loc = Loc.halted ∨
        (run cfg L).loc = Loc.idleSusp ∨ (run cfg L).loc = Loc.parked →
      ¬((run cfg L).ledStatus = (run cfg L).ledUser)) := by
  obtain ⟨h1, h2, h3, hrest⟩ := inv_run cfg L
  refine ⟨?_, ?_, ?_⟩
  · intro h
    cases hloc : (run cfg L).loc <;> simp_all [isEngineCallLoc, statusAt, userAt]
  · intro h
    rcases h with h | h <;> simp_all [statusAt, userAt]
  · intro h
    cases hloc : (run cfg L).loc <;> simp_all [isEngineCallLoc, statusAt, userAt]

/-- Witness for `C10_exactly_one_led_identifies_phase`: two task steps in
(about to call `build_transformer`) only the status LED is lit; parked
after boot only the user LED is lit. -/
theorem C10_exactly_one_led_identifies_phase_witness :
    ((run cfgOk [Label.task, Label.task]).ledStatus = true ∧
      (run cfgOk [Label.task, Label.task]).ledUser = false) ∧
    ((run cfgOk bootTrace).ledStatus = false ∧ (run cfgOk bootTrace).ledUser = true) ∧
    ¬((run cfgOk bootTrace).ledStatus = (run cfgOk bootTrace).ledUser) :=
  ⟨(C10_exactly_one_led_identifies_phase cfgOk [Label.task, Label.task]).1 (Or.inl (by decide)),
   (C10_exactly_one_led_identifies_phase cfgOk bootTrace).2.1 (Or.inr (by decide)),
   (C10_exactly_one_led_identifies_phase cfgOk bootTrace).2.2 (Or.inr (Or.inr (Or.inr (by decide))))⟩

end Llama4micro
